import Mathlib

/-!
Verification of the irradiance core (`pvlib/irradiance.py`): diffuse-sky
transposition models (Klucher, Hay-Davies, Reindl, Perez), the embedded Perez
coefficient tables, extraterrestrial radiation, and the in-plane composition
function.  Numeric series are modelled as `List ℝ` (one entry per
observation); element-wise NumPy/pandas arithmetic becomes `zip`/`map`;
pandas boolean-mask assignments (`x[x < c] = c`) become per-element
conditionals; float arithmetic is idealised as real arithmetic.
-/

namespace PVLib

/-! ## Perez coefficient tables (source: `GetPerezCoefficients`, `coeffdict`)

Each table is transcribed literally from the Python dict literal.  Note that
the first row of `allsitescomposite1988` contains seven entries in the
source (`-0.071,0` — a comma where the final digit of `-0.0710` was
intended), while every other row of every table has six. -/

def allsitescomposite1990 : List (List ℚ) :=
  [[-0.0080,    0.5880,   -0.0620,   -0.0600,    0.0720,   -0.0220],
   [ 0.1300,    0.6830,   -0.1510,   -0.0190,    0.0660,   -0.0290],
   [ 0.3300,    0.4870,   -0.2210,    0.0550,   -0.0640,   -0.0260],
   [ 0.5680,    0.1870,   -0.2950,    0.1090,   -0.1520,   -0.0140],
   [ 0.8730,   -0.3920,   -0.3620,    0.2260,   -0.4620,    0.0010],
   [ 1.1320,   -1.2370,   -0.4120,    0.2880,   -0.8230,    0.0560],
   [ 1.0600,   -1.6000,   -0.3590,    0.2640,   -1.1270,    0.1310],
   [ 0.6780,   -0.3270,   -0.2500,    0.1560,   -1.3770,    0.2510]]

def allsitescomposite1988 : List (List ℚ) :=
  [[-0.0180,    0.7050,   -0.071, 0,   -0.0580,    0.1020,   -0.0260],
   [ 0.1910,    0.6450,   -0.1710,    0.0120,    0.0090,   -0.0270],
   [ 0.4400,    0.3780,   -0.2560,    0.0870,   -0.1040,   -0.0250],
   [ 0.7560,   -0.1210,   -0.3460,    0.1790,   -0.3210,   -0.0080],
   [ 0.9960,   -0.6450,   -0.4050,    0.2600,   -0.5900,    0.0170],
   [ 1.0980,   -1.2900,   -0.3930,    0.2690,   -0.8320,    0.0750],
   [ 0.9730,   -1.1350,   -0.3780,    0.1240,   -0.2580,    0.1490],
   [ 0.6890,   -0.4120,   -0.2730,    0.1990,   -1.6750,    0.2370]]

def sandiacomposite1988 : List (List ℚ) :=
  [[-0.1960,    1.0840,   -0.0060,   -0.1140,    0.1800,   -0.0190],
   [ 0.2360,    0.5190,   -0.1800,   -0.0110,    0.0200,   -0.0380],
   [ 0.4540,    0.3210,   -0.2550,    0.0720,   -0.0980,   -0.0460],
   [ 0.8660,   -0.3810,   -0.3750,    0.2030,   -0.4030,   -0.0490],
   [ 1.0260,   -0.7110,   -0.4260,    0.2730,   -0.6020,   -0.0610],
   [ 0.9780,   -0.9860,   -0.3500,    0.2800,   -0.9150,   -0.0240],
   [ 0.7480,   -0.9130,   -0.2360,    0.1730,   -1.0450,    0.0650],
   [ 0.3180,   -0.7570,    0.1030,    0.0620,   -1.6980,    0.2360]]

def usacomposite1988 : List (List ℚ) :=
  [[-0.0340,    0.6710,   -0.0590,   -0.0590,    0.0860,   -0.0280],
   [ 0.2550,    0.4740,   -0.1910,    0.0180,   -0.0140,   -0.0330],
   [ 0.4270,    0.3490,   -0.2450,    0.0930,   -0.1210,   -0.0390],
   [ 0.7560,   -0.2130,   -0.3280,    0.1750,   -0.3040,   -0.0270],
   [ 1.0200,   -0.8570,   -0.3850,    0.2800,   -0.6380,   -0.0190],
   [ 1.0500,   -1.3440,   -0.3480,    0.2800,   -0.8930,    0.0370],
   [ 0.9740,   -1.5070,   -0.3700,    0.1540,   -0.5680,    0.1090],
   [ 0.7440,   -1.8170,   -0.2560,    0.2460,   -2.6180,    0.2300]]

def france1988 : List (List ℚ) :=
  [[ 0.0130,    0.7640,   -0.1000,   -0.0580,    0.1270,   -0.0230],
   [ 0.0950,    0.9200,   -0.1520,         0,    0.0510,   -0.0200],
   [ 0.4640,    0.4210,   -0.2800,    0.0640,   -0.0510,   -0.0020],
   [ 0.7590,   -0.0090,   -0.3730,    0.2010,   -0.3820,    0.0100],
   [ 0.9760,   -0.4000,   -0.4360,    0.2710,   -0.6380,    0.0510],
   [ 1.1760,   -1.2540,   -0.4620,    0.2950,   -0.9750,    0.1290],
   [ 1.1060,   -1.5630,   -0.3980,    0.3010,   -1.4420,    0.2120],
   [ 0.9340,   -1.5010,   -0.2710,    0.4200,   -2.9170,    0.2490]]

def phoenix1988 : List (List ℚ) :=
  [[-0.0030,    0.7280,   -0.0970,   -0.0750,    0.1420,   -0.0430],
   [ 0.2790,    0.3540,   -0.1760,    0.0300,   -0.0550,   -0.0540],
   [ 0.4690,    0.1680,   -0.2460,    0.0480,   -0.0420,   -0.0570],
   [ 0.8560,   -0.5190,   -0.3400,    0.1760,   -0.3800,   -0.0310],
   [ 0.9410,   -0.6250,   -0.3910,    0.1880,   -0.3600,   -0.0490],
   [ 1.0560,   -1.1340,   -0.4100,    0.2810,   -0.7940,   -0.0650],
   [ 0.9010,   -2.1390,   -0.2690,    0.1180,   -0.6650,    0.0460],
   [ 0.1070,    0.4810,    0.1430,   -0.1110,   -0.1370,    0.2340]]

def elmonte1988 : List (List ℚ) :=
  [[ 0.0270,    0.7010,   -0.1190,   -0.0580,    0.1070,   -0.0600],
   [ 0.1810,    0.6710,   -0.1780,   -0.0790,    0.1940,   -0.0350],
   [ 0.4760,    0.4070,   -0.2880,    0.0540,   -0.0320,   -0.0550],
   [ 0.8750,   -0.2180,   -0.4030,    0.1870,   -0.3090,   -0.0610],
   [ 1.1660,   -1.0140,   -0.4540,    0.2110,   -0.4100,   -0.0440],
   [ 1.1430,   -2.0640,   -0.2910,    0.0970,   -0.3190,    0.0530],
   [ 1.0940,   -2.6320,   -0.2590,    0.0290,   -0.4220,    0.1470],
   [ 0.1550,    1.7230,    0.1630,   -0.1310,   -0.0190,    0.2770]]

def osage1988 : List (List ℚ) :=
  [[-0.3530,    1.4740,    0.0570,   -0.1750,    0.3120,    0.0090],
   [ 0.3630,    0.2180,   -0.2120,    0.0190,   -0.0340,   -0.0590],
   [-0.0310,    1.2620,   -0.0840,   -0.0820,    0.2310,   -0.0170],
   [ 0.6910,    0.0390,   -0.2950,    0.0910,   -0.1310,   -0.0350],
   [ 1.1820,   -1.3500,   -0.3210,    0.4080,   -0.9850,   -0.0880],
   [ 0.7640,    0.0190,   -0.2030,    0.2170,   -0.2940,   -0.1030],
   [ 0.2190,    1.4120,    0.2440,    0.4710,   -2.9880,    0.0340],
   [ 3.5780,   22.2310,  -10.7450,    2.4260,    4.8920,   -5.6870]]

def albuquerque1988 : List (List ℚ) :=
  [[ 0.0340,    0.5010,   -0.0940,   -0.0630,    0.1060,   -0.0440],
   [ 0.2290,    0.4670,   -0.1560,   -0.0050,   -0.0190,   -0.0230],
   [ 0.4860,    0.2410,   -0.2530,    0.0530,   -0.0640,   -0.0220],
   [ 0.8740,   -0.3930,   -0.3970,    0.1810,   -0.3270,   -0.0370],
   [ 1.1930,   -1.2960,   -0.5010,    0.2810,   -0.6560,   -0.0450],
   [ 1.0560,   -1.7580,   -0.3740,    0.2260,   -0.7590,    0.0340],
   [ 0.9010,   -4.7830,   -0.1090,    0.0630,   -0.9700,    0.1960],
   [ 0.8510,   -7.0550,   -0.0530,    0.0600,   -2.8330,    0.3300]]

def capecanaveral1988 : List (List ℚ) :=
  [[ 0.0750,    0.5330,   -0.1240,   -0.0670,    0.0420,   -0.0200],
   [ 0.2950,    0.4970,   -0.2180,   -0.0080,    0.0030,   -0.0290],
   [ 0.5140,    0.0810,   -0.2610,    0.0750,   -0.1600,   -0.0290],
   [ 0.7470,   -0.3290,   -0.3250,    0.1810,   -0.4160,   -0.0300],
   [ 0.9010,   -0.8830,   -0.2970,    0.1780,   -0.4890,    0.0080],
   [ 0.5910,   -0.0440,   -0.1160,    0.2350,   -0.9990,    0.0980],
   [ 0.5370,   -2.4020,    0.3200,    0.1690,   -1.9710,    0.3100],
   [-0.8050,    4.5460,    1.0720,   -0.2580,   -0.9500,    0.7530]]

def albany1988 : List (List ℚ) :=
  [[ 0.0120,    0.5540,   -0.0760,   -0.0520,    0.0840,   -0.0290],
   [ 0.2670,    0.4370,   -0.1940,    0.0160,    0.0220,   -0.0360],
   [ 0.4200,    0.3360,   -0.2370,    0.0740,   -0.0520,   -0.0320],
   [ 0.6380,   -0.0010,   -0.2810,    0.1380,   -0.1890,   -0.0120],
   [ 1.0190,   -1.0270,   -0.3420,    0.2710,   -0.6280,    0.0140],
   [ 1.1490,   -1.9400,   -0.3310,    0.3220,   -1.0970,    0.0800],
   [ 1.4340,   -3.9940,   -0.4920,    0.4530,   -2.3760,    0.1170],
   [ 1.0070,   -2.2920,   -0.4820,    0.3900,   -3.3680,    0.2290]]

/-- The `coeffdict` dict literal of `GetPerezCoefficients`, in source order. -/
def coeffdict : List (String × List (List ℚ)) :=
  [("allsitescomposite1990", allsitescomposite1990),
   ("allsitescomposite1988", allsitescomposite1988),
   ("sandiacomposite1988", sandiacomposite1988),
   ("usacomposite1988", usacomposite1988),
   ("france1988", france1988),
   ("phoenix1988", phoenix1988),
   ("elmonte1988", elmonte1988),
   ("osage1988", osage1988),
   ("albuquerque1988", albuquerque1988),
   ("capecanaveral1988", capecanaveral1988),
   ("albany1988", albany1988)]

/-- The model names the coefficient dictionary knows (its key set). -/
def perezModelNames : List String := coeffdict.map Prod.fst

/-- The default value of the `modelt` parameter of `perez`. -/
def perezDefaultModel : String := "allsitescomposite1990"

/-- `GetPerezCoefficients(perezmodelt)`: dictionary lookup (a missing key is
a Python `KeyError`, modelled as `none`), then the two column slices
`array.T[0:3].T` and `array.T[3:7].T`.  For a rectangular table of 6-entry
rows these NumPy expressions are the per-row slices `take 3` and
`(drop 3).take 4` used here (the second yielding 3 columns, since a 6-entry
row has none beyond index 5).  The jagged `allsitescomposite1988` table does
not form a rectangular array, so for it NumPy degrades to an object array
and the source expressions stop denoting column slices at all. -/
def GetPerezCoefficients (perezmodelt : String) :
    Option (List (List ℚ) × List (List ℚ)) :=
  (coeffdict.lookup perezmodelt).map fun t =>
    (t.map (List.take 3), t.map fun r => (r.drop 3).take 4)

/-! ## Trigonometric-in-degrees helpers and the transposition models -/

noncomputable section

/-- Modelled from the spec: `pvl_tools.cosd`, one of the shared
"trigonometric-in-degrees helpers" of the absent `pvl_tools` module —
"Angle units are always decimal degrees at the function boundary; radian
conversion is internal". -/
def cosd (x : ℝ) : ℝ := Real.cos (x * Real.pi / 180)

/-- Modelled from the spec: `pvl_tools.sind`, sine of an angle given in
decimal degrees. -/
def sind (x : ℝ) : ℝ := Real.sin (x * Real.pi / 180)

/-- The incidence-cosine expression written identically in `haydavies1980`,
`klucher1979`, `reindl1990` and `perez` (there as the geometric factor `A`):
`cosd(SurfTilt)*cosd(SunZen) + sind(SurfTilt)*sind(SunZen)*cosd(SunAz-SurfAz)`. -/
def COSTTelem (SurfTilt SurfAz SunZen SunAz : ℝ) : ℝ :=
  cosd SurfTilt * cosd SunZen + sind SurfTilt * sind SunZen * cosd (SunAz - SurfAz)

/-- The incidence-cosine series, element-wise over aligned input series. -/
def COSTTseries (SurfTilt SurfAz SunZen SunAz : List ℝ) : List ℝ :=
  (SurfTilt.zip (SurfAz.zip (SunZen.zip SunAz))).map fun p =>
    COSTTelem p.1 p.2.1 p.2.2.1 p.2.2.2

/-- `pandas.Series.max` as reached through `np.max(series, axis)`: the
2012-era pandas `Series.max` ignores its NumPy-compatibility `axis`
argument and reduces the whole series to its maximum.  Consequently
`np.max(COSTT, 0)` and `np.max(pvl_tools.cosd(SunZen), 0.01745)` in the
source are series-wide maxima, not the element-wise clamps `np.maximum`
would compute. -/
def seriesMax : List ℝ → ℝ
  | [] => 0
  | x :: xs => xs.foldl max x

/-- `RB = np.max(COSTT,0) / np.max(pvl_tools.cosd(SunZen),0.01745)` — the
scalar ratio computed by this very expression at `haydavies1980` line 293
and again at `reindl1990` line 1021. -/
def RBseries (SurfTilt SurfAz SunZen SunAz : List ℝ) : ℝ :=
  seriesMax (COSTTseries SurfTilt SurfAz SunZen SunAz) / seriesMax (SunZen.map cosd)

/-- `haydavies1980(SurfTilt,SurfAz,DHI,DNI,HExtra,SunZen,SunAz)`:
`AI = DNI/HExtra` element-wise, `RB` the scalar above, and
`SkyDiffuse = DHI*(AI*RB + (1-AI)*0.5*(1+cosd(SurfTilt)))`. -/
def haydavies1980 (SurfTilt SurfAz DHI DNI HExtra SunZen SunAz : List ℝ) : List ℝ :=
  let RB := RBseries SurfTilt SurfAz SunZen SunAz
  (DHI.zip (DNI.zip (HExtra.zip SurfTilt))).map fun p =>
    p.1 * (p.2.1 / p.2.2.1 * RB + (1 - p.2.1 / p.2.2.1) * 0.5 * (1 + cosd p.2.2.2))

/-- The element-wise Hay-Davies computation the specification asserts:
per element, `RB = max(COSTT,0) / max(cos(zenith),0.01745)` and
`SkyDiffuse = DHI*(AI*RB + (1-AI)*0.5*(1+cos(tilt)))` with `AI = DNI/HExtra`.
Stated from the claim's words, to be compared with `haydavies1980`. -/
def haydavies1980Spec (SurfTilt SurfAz DHI DNI HExtra SunZen SunAz : List ℝ) : List ℝ :=
  (SurfTilt.zip (SurfAz.zip (DHI.zip (DNI.zip (HExtra.zip (SunZen.zip SunAz)))))).map
    fun p =>
      let t := p.1
      let a := p.2.1
      let d := p.2.2.1
      let n := p.2.2.2.1
      let h := p.2.2.2.2.1
      let z := p.2.2.2.2.2.1
      let s := p.2.2.2.2.2.2
      let RB := max (COSTTelem t a z s) 0 / max (cosd z) 0.01745
      d * (n / h * RB + (1 - n / h) * 0.5 * (1 + cosd t))

/-- The in-place clamping `klucher1979` applies to the caller's `GHI`
series (`GHI[GHI < DHI]=DHI`, then `GHI[GHI < 1e-06]=1e-06`), per element. -/
def klucherGHI (g d : ℝ) : ℝ :=
  let g1 := if g < d then d else g
  if g1 < 1e-6 then 1e-6 else g1

/-- One element of the `klucher1979` SkyDiffuse series:
`F = 1 - (DHI/GHI)^2` over the clamped `GHI`, then
`DHI*(0.5*(1+cosd(t)))*(1+F*sind(t/2)^3)*(1+F*COSTT^2*sind(zen)^3)`. -/
def klucherElem (t a d g z s : ℝ) : ℝ :=
  let G := klucherGHI g d
  let F := 1 - (d / G) ^ 2
  d * (0.5 * (1 + cosd t)) * (1 + F * sind (t / 2) ^ 3) *
    (1 + F * COSTTelem t a z s ^ 2 * sind z ^ 3)

/-- `klucher1979(SurfTilt,SurfAz,DHI,GHI,SunZen,SunAz)`, returning the
SkyDiffuse series together with the caller's `GHI` series as it stands
after the call — the source's boolean-mask assignments mutate the passed
series object in place. -/
def klucher1979 (SurfTilt SurfAz DHI GHI SunZen SunAz : List ℝ) :
    List ℝ × List ℝ :=
  ((SurfTilt.zip (SurfAz.zip (DHI.zip (GHI.zip (SunZen.zip SunAz))))).map fun p =>
    klucherElem p.1 p.2.1 p.2.2.1 p.2.2.2.1 p.2.2.2.2.1 p.2.2.2.2.2,
   List.zipWith klucherGHI GHI DHI)

/-- The first in-place clamp of `reindl1990` on the caller's `GHI`:
`GHI[GHI < small]=small` with `small = 1e-06`. -/
def reindlGHIstep1 (g : ℝ) : ℝ := if g < 1e-6 then 1e-6 else g

/-- The caller's `GHI` element after both in-place clamps of `reindl1990`
(`GHI[GHI < small]=small`, then later `GHI[GHI < 0]=0`). -/
def reindlGHI (g : ℝ) : ℝ :=
  let g1 := reindlGHIstep1 g
  if g1 < 0 then 0 else g1

/-- One element of the `reindl1990` SkyDiffuse series, given the scalar
ratio `RB`: `AI = DNI/HExtra`, `HB = DNI*cosd(zen)` floored at 0 by
`HB[HB < 0]=0`, `F = sqrt(HB/GHI)` over the clamped `GHI`,
`SCUBE = sind(t*0.5)^3`, and
`DHI*(AI*RB + (1-AI)*0.5*(1+cosd(t))*(1+F*SCUBE))`. -/
def reindlElem (RB t d n g h z : ℝ) : ℝ :=
  let AI := n / h
  let HB0 := n * cosd z
  let HB := if HB0 < 0 then 0 else HB0
  let F := Real.sqrt (HB / reindlGHI g)
  let SCUBE := sind (t * 0.5) ^ 3
  d * (AI * RB + (1 - AI) * 0.5 * (1 + cosd t) * (1 + F * SCUBE))

/-- `reindl1990(SurfTilt,SurfAz,DHI,DNI,GHI,HExtra,SunZen,SunAz)`,
returning the SkyDiffuse series together with the caller's `GHI` series as
it stands after the call. -/
def reindl1990 (SurfTilt SurfAz DHI DNI GHI HExtra SunZen SunAz : List ℝ) :
    List ℝ × List ℝ :=
  ((SurfTilt.zip (DHI.zip (DNI.zip (GHI.zip (HExtra.zip SunZen))))).map fun p =>
    reindlElem (RBseries SurfTilt SurfAz SunZen SunAz) p.1 p.2.1 p.2.2.1
      p.2.2.2.1 p.2.2.2.2.1 p.2.2.2.2.2,
   GHI.map reindlGHI)

/-- The clearness-bin index (0-based, after the source's `ebin=ebin-1`) for
a clearness value `e`; the eight interval masks of the source partition the
whole real line. -/
def ebin (e : ℝ) : ℕ :=
  if e < 1.065 then 0
  else if e < 1.23 then 1
  else if e < 1.5 then 2
  else if e < 1.95 then 3
  else if e < 2.8 then 4
  else if e < 4.5 then 5
  else if e < 6.2 then 6
  else 7

/-- Row `i`, entries 0-2, of a coefficient matrix, as real numbers — the
lookups `F1c[ebin,0]`, `F1c[ebin,1]`, `F1c[ebin,2]` (same for `F2c`). -/
def coeffRow (t : List (List ℚ)) (i : ℕ) : ℝ × ℝ × ℝ :=
  ((((t.getD i []).getD 0 0 : ℚ) : ℝ), (((t.getD i []).getD 1 0 : ℚ) : ℝ),
    (((t.getD i []).getD 2 0 : ℚ) : ℝ))

/-- The combined Perez expression of source line 732 for one element with
`DHI > 0`: clearness `e`, bin lookup, brightness `delt` (after the
`HExtra[HExtra==0]=1e-8` patch), `F1`/`F2` floored at 0, geometric factors
`A` (floored at 0) and `B` (floored at `cosd(85)`), and the linear
combination `DHI*(0.5*(1-F1)*(1+cosd(t)) + F1*A/B + F2*sind(t))` —
everything except the final output floor. -/
def perezCombined (t a d n h z s am : ℝ) (F1c F2c : ℕ → ℝ × ℝ × ℝ) : ℝ :=
  let kappa : ℝ := 1.041
  let zr := z * Real.pi / 180
  let e := ((d + n) / d + kappa * zr ^ 3) / (1 + kappa * zr ^ 3)
  let b := ebin e
  let h2 := if h = 0 then 1e-8 else h
  let delt := d * am / h2
  let F1raw := (F1c b).1 + (F1c b).2.1 * delt + (F1c b).2.2 * zr
  let F1 := if F1raw < 0 then 0 else F1raw
  let F2raw := (F2c b).1 + (F2c b).2.1 * delt + (F2c b).2.2 * zr
  let F2 := if F2raw < 0 then 0 else F2raw
  let A0 := COSTTelem t a z s
  let A := if A0 < 0 then 0 else A0
  let B0 := cosd z
  let B := if B0 < cosd 85 then cosd 85 else B0
  d * (0.5 * (1 - F1) * (1 + cosd t) + F1 * A / B + F2 * sind t)

/-- One returned element of `perez`: the combined expression after the
final floor `SkyDiffuse[SkyDiffuse <= 0] = 0`. -/
def perezElem (t a d n h z s am : ℝ) (F1c F2c : ℕ → ℝ × ℝ × ℝ) : ℝ :=
  if perezCombined t a d n h z s am F1c F2c ≤ 0 then 0
  else perezCombined t a d n h z s am F1c F2c

/-- `perez(SurfTilt,SurfAz,DHI,DNI,HExtra,SunZen,SunAz,AM,modelt)`: an
unknown model name fails (`none`); otherwise the entries with `DHI > 0`
(the `Dhfilter`/`ebinfilter` selection — every such entry receives a bin)
are transformed element-wise and entries with `DHI <= 0` are dropped from
the output. -/
def perez (SurfTilt SurfAz DHI DNI HExtra SunZen SunAz AM : List ℝ)
    (modelt : String) : Option (List ℝ) :=
  (GetPerezCoefficients modelt).map fun Fc =>
    let rows := (SurfTilt.zip (SurfAz.zip (DHI.zip (DNI.zip (HExtra.zip
      (SunZen.zip (SunAz.zip AM))))))).filter fun p => decide ((0 : ℝ) < p.2.2.1)
    rows.map fun p =>
      perezElem p.1 p.2.1 p.2.2.1 p.2.2.2.1 p.2.2.2.2.1 p.2.2.2.2.2.1
        p.2.2.2.2.2.2.1 p.2.2.2.2.2.2.2 (coeffRow Fc.1) (coeffRow Fc.2)

/-- `extraradiation(doy)`: `B = 2*pi*doy/365`, the truncated Fourier factor
`Rfact2`, and `Ea = 1367*Rfact2`. -/
def extraradiation (doy : ℝ) : ℝ :=
  let B := 2 * Real.pi * doy / 365
  let Rfact2 := 1.00011 + 0.034221 * Real.cos B + 0.00128 * Real.sin B +
    0.000719 * Real.cos (2 * B) + 7.7e-5 * Real.sin (2 * B)
  1367 * Rfact2

/-- The record returned by `globalinplane` (the columns of its DataFrame). -/
structure InPlane where
  E : ℝ
  Eb : ℝ
  Ediff : ℝ

/-- `globalinplane(SurfTilt,SurfAz,AOI,DNI,In_Plane_SkyDiffuse,GR)`:
`Eb = DNI*cos(radians(AOI))`, `E = Eb + In_Plane_SkyDiffuse + GR`,
`Ediff = In_Plane_SkyDiffuse + GR`. -/
def globalinplane (SurfTilt SurfAz AOI DNI In_Plane_SkyDiffuse GR : ℝ) : InPlane :=
  let Eb := DNI * Real.cos (AOI * Real.pi / 180)
  { E := Eb + In_Plane_SkyDiffuse + GR
    Eb := Eb
    Ediff := In_Plane_SkyDiffuse + GR }

end

/-! ## Helper lemmas -/

/-- A pandas mask-assignment `x[x < c] = c` is the element-wise maximum. -/
theorem clamp_lt_eq_max (x c : ℝ) : (if x < c then c else x) = max x c := by
  rcases lt_or_le x c with h | h
  · simp [h, max_eq_right h.le]
  · simp [not_lt.mpr h, max_eq_left h]

/-- A pandas mask-assignment `x[x < 0] = 0` is the floor at zero. -/
theorem clamp_neg_eq_max (x : ℝ) : (if x < 0 then 0 else x) = max x 0 :=
  clamp_lt_eq_max x 0

theorem cosd_zero : cosd 0 = 1 := by simp [cosd]

theorem sind_zero : sind 0 = 0 := by simp [sind]

theorem cosd_180 : cosd 180 = -1 := by
  rw [cosd, show (180 : ℝ) * Real.pi / 180 = Real.pi by ring, Real.cos_pi]

theorem sind_180 : sind 180 = 0 := by
  rw [sind, show (180 : ℝ) * Real.pi / 180 = Real.pi by ring, Real.sin_pi]

/-- Association-list lookup succeeds exactly on the key set. -/
theorem lookup_isSome_iff_mem_keys {α : Type} (l : List (String × α)) (s : String) :
    (l.lookup s).isSome ↔ s ∈ l.map Prod.fst := by
  induction l with
  | nil => simp [List.lookup]
  | cons p l ih =>
    obtain ⟨k, v⟩ := p
    by_cases h : s = k
    · subst h
      simp [List.lookup]
    · have hbeq : (s == k) = false := beq_false_of_ne h
      rw [List.map_cons, List.mem_cons]
      simp only [List.lookup, hbeq, ih]
      simp [h]

/-! ## Claims -/

/-- C2: the claim asserts every one of the eleven embedded Perez tables has
exactly 8 rows of exactly 6 entries.  The code violates it: the first row
of `allsitescomposite1988` holds seven entries (the source writes
`-0.071,0` where `-0.0710` was intended), while the other ten tables are
8 by 6 as claimed — so for `allsitescomposite1988` the claimed 8 by 3
column slices are not produced either. -/
theorem perez_coefficients_shape :
    allsitescomposite1988.map List.length = [7, 6, 6, 6, 6, 6, 6, 6] ∧
    (7 : ℕ) ≠ 6 ∧
    (∀ t ∈ [allsitescomposite1990, sandiacomposite1988, usacomposite1988,
        france1988, phoenix1988, elmonte1988, osage1988, albuquerque1988,
        capecanaveral1988, albany1988],
      t.map List.length = [6, 6, 6, 6, 6, 6, 6, 6]) ∧
    (∀ name ∈ ["allsitescomposite1990", "sandiacomposite1988",
        "usacomposite1988", "france1988", "phoenix1988", "elmonte1988",
        "osage1988", "albuquerque1988", "capecanaveral1988", "albany1988"],
      (GetPerezCoefficients name).map
          (fun p => (p.1.map List.length, p.2.map List.length)) =
        some ([3, 3, 3, 3, 3, 3, 3, 3], [3, 3, 3, 3, 3, 3, 3, 3])) := by
  refine ⟨by decide, by decide, by decide, by decide⟩

/-- C3: `get_perez_coefficients` (and therefore `perez`) accepts exactly
the eleven embedded model names — `allsitescomposite1990`, the default,
heading the list — and fails (Python `KeyError`, modelled as `none`) on
every other string, in particular on `"not_a_model"`. -/
theorem perez_model_names :
    (∀ s : String, (GetPerezCoefficients s).isSome ↔ s ∈ perezModelNames) ∧
    perezModelNames = ["allsitescomposite1990", "allsitescomposite1988",
      "sandiacomposite1988", "usacomposite1988", "france1988", "phoenix1988",
      "elmonte1988", "osage1988", "albuquerque1988", "capecanaveral1988",
      "albany1988"] ∧
    GetPerezCoefficients "not_a_model" = none ∧
    perezDefaultModel = "allsitescomposite1990" ∧
    perezDefaultModel ∈ perezModelNames ∧
    (∀ SurfTilt SurfAz DHI DNI HExtra SunZen SunAz AM : List ℝ, ∀ s : String,
      (perez SurfTilt SurfAz DHI DNI HExtra SunZen SunAz AM s).isSome ↔
        s ∈ perezModelNames) := by
  have hkey : ∀ s : String, (GetPerezCoefficients s).isSome ↔ s ∈ perezModelNames := by
    intro s
    rw [GetPerezCoefficients, perezModelNames, ← lookup_isSome_iff_mem_keys]
    cases coeffdict.lookup s <;> simp
  refine ⟨hkey, by decide, by decide, rfl, by decide, ?_⟩
  intro SurfTilt SurfAz DHI DNI HExtra SunZen SunAz AM s
  rw [perez, ← hkey]
  cases GetPerezCoefficients s <;> simp

/-- C5: in `klucher1979` the clamped `GHI` equals `max (max GHI DHI) 1e-6`
element-wise, and every element of the returned SkyDiffuse series equals
`DHI*0.5*(1+cos(tilt))*(1+F*sin(tilt/2)^3)*(1+F*COSTT^2*sin(zen)^3)` with
`F = 1-(DHI/GHI)^2` over the clamped `GHI` — the series output being the
element-wise map of the per-element computation over the aligned inputs. -/
theorem klucher1979_element (t a d g z s : ℝ)
    (SurfTilt SurfAz DHI GHI SunZen SunAz : List ℝ) :
    klucherGHI g d = max (max g d) 1e-6 ∧
    klucherElem t a d g z s =
      d * (0.5 * (1 + cosd t)) *
        (1 + (1 - (d / max (max g d) 1e-6) ^ 2) * sind (t / 2) ^ 3) *
        (1 + (1 - (d / max (max g d) 1e-6) ^ 2) * COSTTelem t a z s ^ 2
          * sind z ^ 3) ∧
    (klucher1979 SurfTilt SurfAz DHI GHI SunZen SunAz).1 =
      (SurfTilt.zip (SurfAz.zip (DHI.zip (GHI.zip (SunZen.zip SunAz))))).map
        (fun p => klucherElem p.1 p.2.1 p.2.2.1 p.2.2.2.1 p.2.2.2.2.1 p.2.2.2.2.2) := by
  have hG : klucherGHI g d = max (max g d) 1e-6 := by
    show (if (if g < d then d else g) < 1e-6 then 1e-6 else (if g < d then d else g))
        = max (max g d) 1e-6
    rw [clamp_lt_eq_max g d, clamp_lt_eq_max (max g d) 1e-6]
  refine ⟨hG, ?_, rfl⟩
  simp only [klucherElem, hG]

/-- C6: in `reindl1990` the two in-place `GHI` clamps amount to the single
floor `max GHI 1e-6` (the later `GHI[GHI < 0]=0` clamp never fires), and
every element of the returned SkyDiffuse series equals
`DHI*(AI*RB + (1-AI)*0.5*(1+cos(tilt))*(1+F*SCUBE))` with `AI = DNI/HExtra`
and `RB` the very construction `haydavies1980` uses (`RBseries`),
`HB = max(DNI*cos(zen),0)`, `F = sqrt(HB/GHI)`, `SCUBE = sin(tilt/2)^3`. -/
theorem reindl1990_element (RB t d n g h z : ℝ)
    (SurfTilt SurfAz DHI DNI GHI HExtra SunZen SunAz : List ℝ) :
    reindlGHI g = max g 1e-6 ∧
    reindlGHI g = reindlGHIstep1 g ∧
    reindlElem RB t d n g h z =
      d * (n / h * RB + (1 - n / h) * 0.5 * (1 + cosd t) *
        (1 + Real.sqrt (max (n * cosd z) 0 / max g 1e-6) * sind (t * 0.5) ^ 3)) ∧
    (reindl1990 SurfTilt SurfAz DHI DNI GHI HExtra SunZen SunAz).1 =
      (SurfTilt.zip (DHI.zip (DNI.zip (GHI.zip (HExtra.zip SunZen))))).map
        (fun p => reindlElem (RBseries SurfTilt SurfAz SunZen SunAz)
          p.1 p.2.1 p.2.2.1 p.2.2.2.1 p.2.2.2.2.1 p.2.2.2.2.2) := by
  have hstep : reindlGHIstep1 g = max g 1e-6 := clamp_lt_eq_max g 1e-6
  have hpos : ¬ reindlGHIstep1 g < 0 := by
    rw [hstep]
    exact not_lt.mpr (le_trans (by norm_num) (le_max_right g 1e-6))
  have hGHI : reindlGHI g = reindlGHIstep1 g := by
    show (if reindlGHIstep1 g < 0 then 0 else reindlGHIstep1 g) = reindlGHIstep1 g
    rw [if_neg hpos]
  refine ⟨hGHI.trans hstep, hGHI, ?_, rfl⟩
  simp only [reindlElem, clamp_neg_eq_max, hGHI.trans hstep]

/-- C4: the claim asserts no core function silently alters the caller's
series arguments; the code does mutate them — `klucher1979` rewrites the
caller's `GHI` in place (here `GHI = [50]`, `DHI = [100]` leaves the
caller's series holding `[100]`), and `reindl1990` rewrites a `GHI` of
`[0]` to `[1e-6]`. -/
theorem klucher_reindl_mutate_inputs :
    (klucher1979 [0] [0] [100] [50] [0] [0]).2 = [100] ∧
    (100 : ℝ) ≠ 50 ∧
    (reindl1990 [0] [0] [0] [0] [0] [0] [0] [0]).2 = [1e-6] ∧
    (1e-6 : ℝ) ≠ 0 := by
  refine ⟨?_, by norm_num, ?_, by norm_num⟩
  · show [klucherGHI 50 100] = [100]
    rw [show klucherGHI 50 100 =
        (if (if (50:ℝ) < 100 then (100:ℝ) else 50) < 1e-6 then 1e-6
         else (if (50:ℝ) < 100 then (100:ℝ) else 50)) from rfl]
    norm_num
  · show [reindlGHI 0] = [1e-6]
    rw [show reindlGHI 0 = (if reindlGHIstep1 0 < 0 then 0 else reindlGHIstep1 0) from rfl,
      show reindlGHIstep1 0 = (if (0:ℝ) < 1e-6 then 1e-6 else 0) from rfl]
    norm_num

/-- C7: `perez` floors the combined expression at 0 element-wise before
returning, so each returned element equals `max` of the combined expression
and 0 and every element of any returned SkyDiffuse series is non-negative,
for all inputs and all coefficient tables. -/
theorem perez_skydiffuse_nonneg
    (SurfTilt SurfAz DHI DNI HExtra SunZen SunAz AM : List ℝ) (modelt : String) :
    (∀ t a d n h z s am : ℝ, ∀ F1c F2c : ℕ → ℝ × ℝ × ℝ,
      perezElem t a d n h z s am F1c F2c
          = max (perezCombined t a d n h z s am F1c F2c) 0 ∧
        0 ≤ perezElem t a d n h z s am F1c F2c) ∧
    ((perez SurfTilt SurfAz DHI DNI HExtra SunZen SunAz AM modelt).getD
      []).Forall (fun x => 0 ≤ x) := by
  have key : ∀ t a d n h z s am : ℝ, ∀ F1c F2c : ℕ → ℝ × ℝ × ℝ,
      perezElem t a d n h z s am F1c F2c
          = max (perezCombined t a d n h z s am F1c F2c) 0 ∧
        0 ≤ perezElem t a d n h z s am F1c F2c := by
    intro t a d n h z s am F1c F2c
    have heq : perezElem t a d n h z s am F1c F2c
        = max (perezCombined t a d n h z s am F1c F2c) 0 := by
      rw [perezElem]
      rcases le_or_lt (perezCombined t a d n h z s am F1c F2c) 0 with hc | hc
      · rw [if_pos hc, max_eq_right hc]
      · rw [if_neg (not_le.mpr hc), max_eq_left hc.le]
    exact ⟨heq, heq ▸ le_max_right _ _⟩
  refine ⟨key, ?_⟩
  rw [perez]
  cases GetPerezCoefficients modelt with
  | none => simp [List.Forall]
  | some Fc =>
    rw [Option.map_some', Option.getD_some]
    rw [List.forall_iff_forall_mem]
    intro x hx
    obtain ⟨p, -, rfl⟩ := List.mem_map.mp hx
    exact (key _ _ _ _ _ _ _ _ _ _).2

/-- C9: `globalinplane` returns exactly the beam `DNI*cos(radians AOI)`,
the diffuse total `SkyDiffuse + GR`, and the total `beam + diffuse`; for
`AOI = 0` the beam equals `DNI` and the total equals `DNI + SkyDiffuse + GR`. -/
theorem globalinplane_composition (SurfTilt SurfAz AOI DNI Sky GR : ℝ) :
    (globalinplane SurfTilt SurfAz AOI DNI Sky GR).Eb
        = DNI * Real.cos (AOI * Real.pi / 180) ∧
    (globalinplane SurfTilt SurfAz AOI DNI Sky GR).Ediff = Sky + GR ∧
    (globalinplane SurfTilt SurfAz AOI DNI Sky GR).E
        = (globalinplane SurfTilt SurfAz AOI DNI Sky GR).Eb
          + (globalinplane SurfTilt SurfAz AOI DNI Sky GR).Ediff ∧
    (globalinplane SurfTilt SurfAz 0 DNI Sky GR).Eb = DNI ∧
    (globalinplane SurfTilt SurfAz 0 DNI Sky GR).E = DNI + Sky + GR := by
  refine ⟨rfl, rfl, ?_, ?_, ?_⟩
  · show DNI * Real.cos (AOI * Real.pi / 180) + Sky + GR
        = DNI * Real.cos (AOI * Real.pi / 180) + (Sky + GR)
    ring
  · show DNI * Real.cos (0 * Real.pi / 180) = DNI
    simp
  · show DNI * Real.cos (0 * Real.pi / 180) + Sky + GR = DNI + Sky + GR
    simp

/-- C10: for `90 < AOI <= 180` and `DNI > 0` the beam component returned by
`globalinplane` is strictly negative (no floor at zero is applied), and the
returned total is strictly below the returned diffuse total. -/
theorem globalinplane_backside (SurfTilt SurfAz AOI DNI Sky GR : ℝ)
    (h1 : 90 < AOI) (h2 : AOI ≤ 180) (h3 : 0 < DNI) :
    (globalinplane SurfTilt SurfAz AOI DNI Sky GR).Eb < 0 ∧
    (globalinplane SurfTilt SurfAz AOI DNI Sky GR).E
      < (globalinplane SurfTilt SurfAz AOI DNI Sky GR).Ediff := by
  have hpi : 0 < Real.pi := Real.pi_pos
  have hlow : Real.pi / 2 < AOI * Real.pi / 180 := by nlinarith
  have hhigh : AOI * Real.pi / 180 < Real.pi + Real.pi / 2 := by nlinarith
  have hcos : Real.cos (AOI * Real.pi / 180) < 0 :=
    Real.cos_neg_of_pi_div_two_lt_of_lt hlow hhigh
  have hEb : DNI * Real.cos (AOI * Real.pi / 180) < 0 :=
    mul_neg_of_pos_of_neg h3 hcos
  constructor
  · exact hEb
  · show DNI * Real.cos (AOI * Real.pi / 180) + Sky + GR < Sky + GR
    linarith

/-- Witness for C10: at `AOI = 180`, `DNI = 1` the beam is negative and the
total falls below the diffuse total. -/
theorem globalinplane_backside_witness :
    (globalinplane 0 0 180 1 0 0).Eb < 0 ∧
    (globalinplane 0 0 180 1 0 0).E < (globalinplane 0 0 180 1 0 0).Ediff :=
  globalinplane_backside 0 0 180 1 0 0 (by norm_num) (by norm_num) (by norm_num)

/-- C1: the claim asserts `haydavies1980` computes the beam-transposition
ratio `RB = max(COSTT,0)/max(cos(zen),0.01745)` element-wise; the code
instead evaluates `np.max(COSTT,0)/np.max(cosd(SunZen),0.01745)`, a ratio
of series-wide maxima with no flooring.  On the one-entry series
`SurfTilt=180, SurfAz=0, DHI=100, DNI=700, HExtra=1400, SunZen=0, SunAz=0`
(so `COSTT = -1`, `HExtra > 0`, `AI = 1/2`) the code returns `-50` where
the claimed formula yields `0`. -/
theorem haydavies1980_counterexample :
    haydavies1980 [180] [0] [100] [700] [1400] [0] [0] = [-50] ∧
    haydavies1980Spec [180] [0] [100] [700] [1400] [0] [0] = [0] := by
  have hC : COSTTelem 180 0 0 0 = -1 := by
    rw [COSTTelem, cosd_180, sind_180, cosd_zero, sind_zero]
    norm_num
  constructor
  · show [(100 : ℝ) * (700 / 1400 * (seriesMax [COSTTelem 180 0 0 0] / seriesMax [cosd 0])
        + (1 - 700 / 1400) * 0.5 * (1 + cosd 180))] = [-50]
    rw [hC, cosd_180, cosd_zero]
    show [(100 : ℝ) * (700 / 1400 * (-1 / 1) + (1 - 700 / 1400) * 0.5 * (1 + -1))] = [-50]
    norm_num
  · show [(100 : ℝ) * (700 / 1400 * (max (COSTTelem 180 0 0 0) 0 / max (cosd 0) 0.01745)
        + (1 - 700 / 1400) * 0.5 * (1 + cosd 180))] = [0]
    rw [hC, cosd_180, cosd_zero]
    rw [max_eq_right (by norm_num : (-1 : ℝ) ≤ 0),
      max_eq_left (by norm_num : (0.01745 : ℝ) ≤ 1)]
    norm_num

/-- Interval bounds for the day-one Fourier factor: for any `x` in the
small window containing `2*pi/365`, the orbital-correction expression lands
within 1 of 1414.9. -/
theorem extraradiation_fourier_bound (x : ℝ) (hxl : 0.01721 < x) (hxu : x < 0.01722) :
    |1367 * (1.00011 + 0.034221 * Real.cos x + 0.00128 * Real.sin x
      + 0.000719 * Real.cos (2 * x) + 7.7e-5 * Real.sin (2 * x)) - 1414.9| < 1 := by
  have hpi : (3.14 : ℝ) < Real.pi := Real.pi_gt_d2
  have hxpos : (0 : ℝ) < x := by linarith
  have hc1u : Real.cos x ≤ 1 := Real.cos_le_one x
  have hc1l : 1 - x ^ 2 / 2 ≤ Real.cos x := Real.one_sub_sq_div_two_le_cos
  have hs1l : 0 ≤ Real.sin x :=
    Real.sin_nonneg_of_nonneg_of_le_pi hxpos.le (by linarith)
  have hs1u : Real.sin x < x := Real.sin_lt hxpos
  have h2xpos : (0 : ℝ) < 2 * x := by linarith
  have hc2u : Real.cos (2 * x) ≤ 1 := Real.cos_le_one _
  have hc2l : 1 - (2 * x) ^ 2 / 2 ≤ Real.cos (2 * x) :=
    Real.one_sub_sq_div_two_le_cos
  have hs2l : 0 ≤ Real.sin (2 * x) :=
    Real.sin_nonneg_of_nonneg_of_le_pi h2xpos.le (by linarith)
  have hs2u : Real.sin (2 * x) < 2 * x := Real.sin_lt h2xpos
  have hx2 : x ^ 2 < 0.0003 := by nlinarith
  have h2x2 : (2 * x) ^ 2 < 0.0012 := by nlinarith
  rw [abs_lt]
  constructor <;> nlinarith

/-- C8 counterexample: the claim writes the `sin(2B)` coefficient as
`0.0000077`, but the source uses `7.7e-05 = 0.000077`; at
`day_of_year = 1` the value `extraradiation 1` differs from the claimed
Fourier expression (their difference is `1367*0.0000693*sin(4*pi/365) > 0`). -/
theorem extraradiation_claim_counterexample :
    extraradiation 1 ≠
      1367 * (1.00011 + 0.034221 * Real.cos (2 * Real.pi * 1 / 365)
        + 0.00128 * Real.sin (2 * Real.pi * 1 / 365)
        + 0.000719 * Real.cos (2 * (2 * Real.pi * 1 / 365))
        + 0.0000077 * Real.sin (2 * (2 * Real.pi * 1 / 365))) := by
  have hpil : (3.14 : ℝ) < Real.pi := Real.pi_gt_d2
  have hpiu : Real.pi < 3.15 := Real.pi_lt_d2
  have hs : 0 < Real.sin (2 * (2 * Real.pi * 1 / 365)) := by
    apply Real.sin_pos_of_pos_of_lt_pi
    · nlinarith
    · nlinarith
  have key : 1367 * (1.00011 + 0.034221 * Real.cos (2 * Real.pi * 1 / 365)
        + 0.00128 * Real.sin (2 * Real.pi * 1 / 365)
        + 0.000719 * Real.cos (2 * (2 * Real.pi * 1 / 365))
        + 0.0000077 * Real.sin (2 * (2 * Real.pi * 1 / 365)))
      < extraradiation 1 := by
    show _ < 1367 * (1.00011 + 0.034221 * Real.cos (2 * Real.pi * 1 / 365)
      + 0.00128 * Real.sin (2 * Real.pi * 1 / 365)
      + 0.000719 * Real.cos (2 * (2 * Real.pi * 1 / 365))
      + 7.7e-5 * Real.sin (2 * (2 * Real.pi * 1 / 365)))
    nlinarith
  exact key.ne'

/-- C8 (amended to the source's `sin(2B)` coefficient `7.7e-05`): for every
`day_of_year`, `extraradiation` returns `1367 * Rfact` with
`Rfact = 1.00011 + 0.034221*cos(B) + 0.00128*sin(B) + 0.000719*cos(2B)
+ 0.000077*sin(2B)` and `B = 2*pi*doy/365`, and at `day_of_year = 1` the
result is within 1 W/m^2 of 1414.9. -/
theorem extraradiation_formula_day1 :
    (∀ doy : ℝ, extraradiation doy =
      1367 * (1.00011 + 0.034221 * Real.cos (2 * Real.pi * doy / 365)
        + 0.00128 * Real.sin (2 * Real.pi * doy / 365)
        + 0.000719 * Real.cos (2 * (2 * Real.pi * doy / 365))
        + 0.000077 * Real.sin (2 * (2 * Real.pi * doy / 365)))) ∧
    |extraradiation 1 - 1414.9| < 1 := by
  constructor
  · intro doy
    norm_num [extraradiation]
  · have hpil : (3.141592 : ℝ) < Real.pi := Real.pi_gt_d6
    have hpiu : Real.pi < 3.141593 := Real.pi_lt_d6
    have hEa : extraradiation 1 =
        1367 * (1.00011 + 0.034221 * Real.cos (2 * Real.pi * 1 / 365)
          + 0.00128 * Real.sin (2 * Real.pi * 1 / 365)
          + 0.000719 * Real.cos (2 * (2 * Real.pi * 1 / 365))
          + 7.7e-5 * Real.sin (2 * (2 * Real.pi * 1 / 365))) := rfl
    rw [hEa, show (2 : ℝ) * (2 * Real.pi * 1 / 365) = 2 * (2 * Real.pi * 1 / 365)
      from rfl]
    exact extraradiation_fourier_bound (2 * Real.pi * 1 / 365)
      (by nlinarith) (by nlinarith)

end PVLib
